import Mathlib

/-!
Shallow embedding of the hh.ru vacancy-application automation
(`src/hh_automation/services/apply.py` and `src/hh_automation/cli/login.py`).

Pages are modelled as a static per-call environment `Env`: selector counts are
given by `Env.locCount` (page-rooted locators) and `Env.modalLocCount`
(locators rooted at the modal overlay element), page title/content as strings,
and the fallible browser operations (page acquisition, navigation, the
standard apply click, interactions inside the modal routine) as explicit
outcome fields. Every page interaction the service performs is recorded in an
event trace, so ordering/short-circuit properties of the engine are statable
over the trace.
-/

/-- Python `needle in hay` on strings: substring occurrence test. -/
def strContains (hay needle : String) : Bool :=
  (List.range (hay.data.length + 1)).any fun i => needle.data.isPrefixOf (hay.data.drop i)

/-- Python `str.lower()`, character by character (ASCII case mapping, which
is exact for the ASCII markers the detectors search for). -/
def strLower (s : String) : String :=
  String.mk (s.data.map Char.toLower)

/-- Membership in the regex character class `[a-zA-Z0-9_-]` used by
`VacancyApplyService._save_screenshot` (ASCII-only, as in Python `re`). -/
def isAllowedChar (c : Char) : Bool :=
  c.isAlpha || c.isDigit || c == '-' || c == '_'

/-- Character-level pass of `re.sub(r"[^a-zA-Z0-9_-]+", "_", reason)`:
`inRun` records whether the previous character belonged to a run of
disallowed characters, so each maximal run contributes a single `_`. -/
def collapseBad : List Char → Bool → List Char
  | [], _ => []
  | c :: cs, inRun =>
    if isAllowedChar c then c :: collapseBad cs false
    else if inRun then collapseBad cs true
    else '_' :: collapseBad cs true

/-- Python `str.strip("_")` on a character list. -/
def stripUnderscore (l : List Char) : List Char :=
  ((l.dropWhile fun c => c == '_').reverse.dropWhile fun c => c == '_').reverse

/-- Line 40 of `_save_screenshot`:
`re.sub(r"[^a-zA-Z0-9_-]+", "_", reason).strip("_").lower() or "error"`.
The input of `.lower()` here contains only ASCII characters (everything else
was already replaced by `_`), so ASCII `Char.toLower` is exact. -/
def safe_reason (reason : String) : String :=
  let s := String.mk ((stripUnderscore (collapseBad reason.data false)).map Char.toLower)
  if s = "" then "error" else s

/-- The sanitization as claim C8 describes it, written from the spec words for
comparison with `safe_reason`: collapse each maximal run of characters outside
`[a-zA-Z0-9_-]` to a single `_`, lower-case, and default to `"error"` exactly
when the result is empty — with no stripping of leading/trailing underscores. -/
def claimed_sanitize (reason : String) : String :=
  let s := String.mk ((collapseBad reason.data false).map Char.toLower)
  if s = "" then "error" else s

/-- One cookie entry of the persisted Playwright storage state (only the
fields `get_cookies` reads). -/
structure Cookie where
  name : String
  value : String
deriving DecidableEq, Repr

/-- The persisted session record (`state` in `login.get_cookies`); a missing
`cookies` field is modelled as the empty list, matching `state.get("cookies", [])`. -/
structure StorageState where
  cookies : List Cookie
deriving DecidableEq, Repr

/-- `login.get_cookies`: `None` when no session file exists, otherwise
`"; ".join(f"{c[\x27name\x27]}={c[\x27value\x27]}" for c in cookies)`. -/
def get_cookies (session : Option StorageState) : Option String :=
  match session with
  | none => none
  | some st =>
    some (String.intercalate "; " (st.cookies.map fun c => c.name ++ "=" ++ c.value))

/-- The serialization claim C9 describes, written from the spec words: the
entries' `name=value` pairs joined by `"; "` in stored order, no trailing
separator, empty sequence giving the empty string. -/
def cookieHeader : List Cookie → String
  | [] => ""
  | c :: cs =>
    match cs with
    | [] => c.name ++ "=" ++ c.value
    | _ :: _ => c.name ++ "=" ++ c.value ++ "; " ++ cookieHeader cs

theorem intercalate_go_spec (s : String) (as : List String) (acc : String) :
    String.intercalate.go acc s as
      = acc ++ String.join (as.map fun a => s ++ a) := by
  induction as generalizing acc with
  | nil =>
    apply String.ext
    simp [String.intercalate.go]
  | cons a as ih =>
    rw [String.intercalate.go, ih]
    apply String.ext
    simp

/-- Events recorded while one `apply` call runs: navigation, screenshot
attempts (tagged with the sanitized reason), detector runs, strategy
invocations, and the UI-mutating interactions (clicks and fills). -/
inductive Ev
  | nav_goto
  | screenshot (tag : String)
  | detect_bot
  | detect_applied
  | strategyA
  | strategyB
  | strategyC
  | strategyD
  | click (selector : String)
  | fill (selector : String) (text : String)
  | detect_success
deriving DecidableEq, Repr

/-- Whether an event is the invocation of one of the four interaction
strategies. -/
def Ev.isStrategy : Ev → Bool
  | Ev.strategyA => true
  | Ev.strategyB => true
  | Ev.strategyC => true
  | Ev.strategyD => true
  | _ => false

/-- Whether an event mutates page UI state (a click or a fill). -/
def Ev.isMutation : Ev → Bool
  | Ev.click _ => true
  | Ev.fill _ _ => true
  | _ => false

/-- Outcome of `browser_manager.get_page(use_session=True).__aenter__`:
success, a raised `FileNotFoundError` (e.g. missing session file), or any
other raised exception. -/
inductive GetPageOutcome
  | ok
  | fileNotFound (msg : String)
  | raises (msg : String)
deriving DecidableEq, Repr

/-- Outcome of `page.goto(url, ...)`: success, `PlaywrightTimeoutError`, or
another exception. -/
inductive GotoOutcome
  | ok
  | timeout (msg : String)
  | failed (msg : String)
deriving DecidableEq, Repr

/-- Static per-call environment for one `apply` invocation: what the page
reports for each selector, the page title/content, and the outcomes of the
fallible browser operations. -/
structure Env where
  getPage : GetPageOutcome
  goto : GotoOutcome
  title : String
  content : String
  locCount : String → Nat
  modalLocCount : String → Nat
  modalAppears : Bool
  modalRaises : Bool
  stdClickRaises : Option String

/-- `ApplyStatus` enum of `apply.py`. -/
inductive ApplyStatus
  | SUCCESS
  | SKIPPED
  | ERROR
deriving DecidableEq, Repr

/-- The string value of each enum member. -/
def ApplyStatus.value : ApplyStatus → String
  | ApplyStatus.SUCCESS => "success"
  | ApplyStatus.SKIPPED => "skipped"
  | ApplyStatus.ERROR => "error"

/-- `ApplyResult` dataclass. -/
structure ApplyResult where
  status : ApplyStatus
  message : String
deriving DecidableEq, Repr

/-- The dictionary `ApplyResult.to_dict` produces. -/
structure ApplyDict where
  status : String
  message : String
deriving DecidableEq, Repr

/-- `ApplyResult.to_dict`. -/
def ApplyResult.to_dict (r : ApplyResult) : ApplyDict :=
  ⟨r.status.value, r.message⟩

/-- An exception escaping `apply`'s body, as seen by the top-level handlers:
whether it is a `FileNotFoundError`, and its `str(e)` message. -/
structure PyExc where
  isFileNotFoundError : Bool
  msg : String
deriving DecidableEq, Repr

/-! Selector literals of `apply.py` (apostrophes written `\x27`). -/

def sel_already : String := "text=Вы откликнулись"
def sel_cover_letter_link : String := "a:has-text(\x27Написать сопроводительное\x27)"
def sel_apply_top : String := "[data-qa=\x27vacancy-response-link-top\x27]:visible"
def sel_apply_bottom : String := "[data-qa=\x27vacancy-response-link-bottom\x27]:visible"
def sel_dropdown : String :=
  "[data-qa=\x27vacancy-response-link-top\x27] + button, [data-qa=\x27vacancy-response-link-bottom\x27] + button"
def sel_with_letter : String := "text=С сопроводительным письмом"
def sel_add_letter : String := "text=Добавить сопроводительное"
def sel_modal_textarea : String :=
  "textarea[data-qa=\x27vacancy-response-popup-form-letter-input\x27]"
def sel_modal_submit : String := "text=Откликнуться"
def sel_resume_delivered : String := "text=Резюме доставлено"
def sel_textarea : String := "textarea"
def sel_post_submit : String := "button:has-text(\x27Отправить\x27)"
def sel_success_sent : String := "text=Отклик отправлен"

namespace VacancyApplyService

/-- `_save_screenshot` (lines 38–49): the observable effect is one screenshot
attempt tagged with the sanitized reason; write failures are swallowed. -/
def save_screenshot (reason : String) : List Ev :=
  [Ev.screenshot (safe_reason reason)]

/-- `_check_bot_protection` (lines 51–57). -/
def check_bot_protection (env : Env) : Bool :=
  strContains (strLower env.title) "captcha" || strContains (strLower env.content) "robot"

/-- `_check_already_applied` (lines 59–64). -/
def check_already_applied (env : Env) : Bool :=
  decide (0 < env.locCount sel_already)

/-- `_fill_cover_letter_modal` (lines 66–117). A `wait_for_selector` timeout
(`modalAppears = false`) or any exception raised during the modal
interactions (`modalRaises = true`, modelled as raising before the first
interaction) is caught by the routine's `except Exception` and yields `none`.
Note the textarea fill at lines 97–99 is guarded only by the textarea's
presence, not by the message being non-empty. -/
def fill_cover_letter_modal (env : Env) (message : String) :
    Option ApplyResult × List Ev :=
  if env.modalAppears then
    if env.modalRaises then (none, [])
    else
      let evs1 :=
        if 0 < env.modalLocCount sel_add_letter then [Ev.click sel_add_letter] else []
      let evs2 :=
        if 0 < env.modalLocCount sel_modal_textarea
        then [Ev.fill sel_modal_textarea message] else []
      if 0 < env.modalLocCount sel_modal_submit then
        (some ⟨ApplyStatus.SUCCESS, "Applied with cover letter"⟩,
          evs1 ++ evs2 ++ [Ev.click sel_modal_submit])
      else
        (some ⟨ApplyStatus.ERROR, "Submit button not found"⟩, evs1 ++ evs2)
  else (none, [])

/-- `_try_cover_letter_link` (lines 119–138): strategy A. -/
def try_cover_letter_link (env : Env) (message : String) :
    Option ApplyResult × List Ev :=
  if 0 < env.locCount sel_cover_letter_link ∧ message ≠ "" then
    let r := fill_cover_letter_modal env message
    (r.1, Ev.click sel_cover_letter_link :: r.2)
  else (none, [])

/-- `_try_dropdown_apply` (lines 140–169): strategy B. -/
def try_dropdown_apply (env : Env) (message : String) :
    Option ApplyResult × List Ev :=
  if 0 < env.locCount sel_dropdown ∧ message ≠ "" then
    if 0 < env.locCount sel_with_letter then
      let r := fill_cover_letter_modal env message
      (r.1, Ev.click sel_dropdown :: Ev.click sel_with_letter :: r.2)
    else (none, [Ev.click sel_dropdown])
  else (none, [])

/-- `_try_post_apply_letter` (lines 171–206): strategy D. When the submit
control is absent after filling, the routine falls through and returns
`None`. -/
def try_post_apply_letter (env : Env) (message : String) :
    Option ApplyResult × List Ev :=
  if 0 < env.locCount sel_resume_delivered ∨ 0 < env.locCount sel_textarea then
    if 0 < env.locCount sel_textarea ∧ message ≠ "" then
      if 0 < env.locCount sel_post_submit then
        (some ⟨ApplyStatus.SUCCESS, "Applied with post-apply cover letter"⟩,
          [Ev.fill sel_textarea message, Ev.click sel_post_submit])
      else (none, [Ev.fill sel_textarea message])
    else (none, [])
  else (none, [])

/-- The ordered success-marker selectors of `_check_application_success`. -/
def success_texts : List String :=
  [sel_success_sent, sel_already, sel_resume_delivered]

/-- `_check_application_success` (lines 208–220): the source loop early-exits
on the first marker found; its value is the disjunction over the list. -/
def check_application_success (env : Env) : Bool :=
  success_texts.any fun s => decide (0 < env.locCount s)

/-- Navigation step of `apply` (lines 241–249): a timeout or error is
tolerated — a diagnostic screenshot is captured and the flow continues. -/
def nav_events (env : Env) : List Ev :=
  match env.goto with
  | GotoOutcome.ok => [Ev.nav_goto]
  | GotoOutcome.timeout _ => Ev.nav_goto :: save_screenshot "navigation_timeout"
  | GotoOutcome.failed _ => Ev.nav_goto :: save_screenshot "navigation_error"

/-- Apply-button lookup of `apply` (lines 267–276): prefer the visible top
control; when its count is zero, re-query with the bottom control. -/
def apply_button_selector (env : Env) : String :=
  if env.locCount sel_apply_top = 0 then sel_apply_bottom else sel_apply_top

/-- The count the engine tests against zero at line 276. -/
def apply_button_count (env : Env) : Nat :=
  env.locCount (apply_button_selector env)

/-- Whether the local variable `page` is bound when the top-level handlers of
`apply` run (it stays `None` only when page acquisition itself raised). -/
def pageBound (env : Env) : Bool :=
  match env.getPage with
  | GetPageOutcome.ok => true
  | _ => false

/-- Body of `apply` (lines 238–314) inside the outer `try`: either the
returned `ApplyResult` or an uncaught exception, together with the event
trace. -/
def apply_body (env : Env) (message : String) :
    Except PyExc ApplyResult × List Ev :=
  match env.getPage with
  | GetPageOutcome.fileNotFound m => (Except.error ⟨true, m⟩, [])
  | GetPageOutcome.raises m => (Except.error ⟨false, m⟩, [])
  | GetPageOutcome.ok =>
    let tr0 := nav_events env
    if check_bot_protection env then
      (Except.ok ⟨ApplyStatus.ERROR, "Bot protection triggered (captcha)"⟩,
        tr0 ++ [Ev.detect_bot])
    else if check_already_applied env then
      (Except.ok ⟨ApplyStatus.SKIPPED, "Already applied"⟩,
        tr0 ++ [Ev.detect_bot, Ev.detect_applied])
    else
      let rA := try_cover_letter_link env message
      let tr1 := tr0 ++ [Ev.detect_bot, Ev.detect_applied, Ev.strategyA] ++ rA.2
      match rA.1 with
      | some r => (Except.ok r, tr1)
      | none =>
        if apply_button_count env = 0 then
          (Except.ok ⟨ApplyStatus.ERROR, "Apply button not found"⟩, tr1)
        else
          let rB := try_dropdown_apply env message
          let tr2 := tr1 ++ [Ev.strategyB] ++ rB.2
          match rB.1 with
          | some r => (Except.ok r, tr2)
          | none =>
            match env.stdClickRaises with
            | some m =>
              (Except.error ⟨false, m⟩, tr2 ++ [Ev.click (apply_button_selector env)])
            | none =>
              let tr3 := tr2 ++ [Ev.click (apply_button_selector env)]
              let rC := fill_cover_letter_modal env message
              let tr4 := tr3 ++ [Ev.strategyC] ++ rC.2
              match rC.1 with
              | some r => (Except.ok r, tr4)
              | none =>
                let rD := try_post_apply_letter env message
                let tr5 := tr4 ++ [Ev.strategyD] ++ rD.2
                match rD.1 with
                | some r => (Except.ok r, tr5)
                | none =>
                  let tr6 := tr5 ++ [Ev.detect_success]
                  if check_application_success env then
                    (Except.ok ⟨ApplyStatus.SUCCESS, "Applied successfully"⟩, tr6)
                  else
                    (Except.ok ⟨ApplyStatus.SUCCESS, "Applied (status unclear)"⟩,
                      tr6 ++ save_screenshot "status unclear")

/-- `apply` (lines 222–322): the body's exceptions are caught at the top
level — `FileNotFoundError` first (no screenshot), then any exception (with a
screenshot attempted when `page` is bound) — and converted to an `Error`
result dictionary carrying the exception's own message. -/
def apply (env : Env) (message : String) : ApplyDict × List Ev :=
  match apply_body env message with
  | (Except.ok r, tr) => (r.to_dict, tr)
  | (Except.error e, tr) =>
    if e.isFileNotFoundError then
      ((ApplyResult.mk ApplyStatus.ERROR e.msg).to_dict, tr)
    else
      ((ApplyResult.mk ApplyStatus.ERROR e.msg).to_dict,
        tr ++ if pageBound env then save_screenshot "apply_error" else [])

end VacancyApplyService

/-! Support lemmas for the sanitization and serialization claims. -/

theorem toNat_ofNat_valid (n : Nat) (h : n < 55296) :
    (Char.ofNat n).toNat = n := by
  rw [Char.ofNat, dif_pos (Or.inl h)]
  rfl

theorem isUpper_iff (c : Char) : c.isUpper = true ↔ 65 ≤ c.toNat ∧ c.toNat ≤ 90 := by
  simp [Char.isUpper, UInt32.le_def, BitVec.le_def, Char.toNat, UInt32.toNat]

theorem isLower_iff (c : Char) : c.isLower = true ↔ 97 ≤ c.toNat ∧ c.toNat ≤ 122 := by
  simp [Char.isLower, UInt32.le_def, BitVec.le_def, Char.toNat, UInt32.toNat]

theorem isDigit_iff (c : Char) : c.isDigit = true ↔ 48 ≤ c.toNat ∧ c.toNat ≤ 57 := by
  simp [Char.isDigit, UInt32.le_def, BitVec.le_def, Char.toNat, UInt32.toNat]

theorem char_toNat_inj {c d : Char} (h : c.toNat = d.toNat) : c = d := by
  apply Char.ext
  exact UInt32.toNat.inj h

theorem isAllowed_iff (c : Char) : isAllowedChar c = true ↔
    (65 ≤ c.toNat ∧ c.toNat ≤ 90) ∨ (97 ≤ c.toNat ∧ c.toNat ≤ 122) ∨
    (48 ≤ c.toNat ∧ c.toNat ≤ 57) ∨ c.toNat = 45 ∨ c.toNat = 95 := by
  simp only [isAllowedChar, Char.isAlpha, Bool.or_eq_true, isUpper_iff, isLower_iff,
    isDigit_iff, beq_iff_eq]
  constructor
  · rintro ((((h | h) | h) | rfl) | rfl)
    · exact Or.inl h
    · exact Or.inr (Or.inl h)
    · exact Or.inr (Or.inr (Or.inl h))
    · exact Or.inr (Or.inr (Or.inr (Or.inl rfl)))
    · exact Or.inr (Or.inr (Or.inr (Or.inr rfl)))
  · rintro (h | h | h | h | h)
    · exact Or.inl (Or.inl (Or.inl (Or.inl h)))
    · exact Or.inl (Or.inl (Or.inl (Or.inr h)))
    · exact Or.inl (Or.inl (Or.inr h))
    · exact Or.inl (Or.inr (char_toNat_inj h))
    · exact Or.inr (char_toNat_inj h)

theorem toLower_allowed (c : Char) (h : isAllowedChar c = true) :
    isAllowedChar c.toLower = true := by
  unfold Char.toLower
  show isAllowedChar
    (if c.toNat ≥ 65 ∧ c.toNat ≤ 90 then Char.ofNat (c.toNat + 32) else c) = true
  by_cases hup : c.toNat ≥ 65 ∧ c.toNat ≤ 90
  · rw [if_pos hup]
    have hv : (Char.ofNat (c.toNat + 32)).toNat = c.toNat + 32 :=
      toNat_ofNat_valid _ (by omega)
    rw [isAllowed_iff, hv]
    exact Or.inr (Or.inl (by omega))
  · rw [if_neg hup]
    exact h

theorem collapseBad_allowed (l : List Char) (b : Bool) :
    ∀ c ∈ collapseBad l b, isAllowedChar c = true := by
  induction l generalizing b with
  | nil => intro c hc; simp [collapseBad] at hc
  | cons a as ih =>
    intro c hc
    simp only [collapseBad] at hc
    by_cases ha : isAllowedChar a = true
    · rw [if_pos ha] at hc
      rcases List.mem_cons.mp hc with h | h
      · rw [h]; exact ha
      · exact ih false c h
    · rw [if_neg ha] at hc
      cases b with
      | true => exact ih true c (by simpa using hc)
      | false =>
        rcases List.mem_cons.mp (by simpa using hc) with h | h
        · rw [h]; decide
        · exact ih true c h

theorem stripUnderscore_subset (l : List Char) : stripUnderscore l ⊆ l := by
  intro c hc
  unfold stripUnderscore at hc
  rw [List.mem_reverse] at hc
  have hc2 := (List.dropWhile_subset _) hc
  rw [List.mem_reverse] at hc2
  exact (List.dropWhile_subset _) hc2

theorem intercalate_cons_cons (s a b : String) (rest : List String) :
    String.intercalate s (a :: b :: rest) = a ++ s ++ String.intercalate s (b :: rest) := by
  apply String.ext
  simp [String.intercalate, intercalate_go_spec]

theorem cookieHeader_spec (l : List Cookie) :
    String.intercalate "; " (l.map fun c => c.name ++ "=" ++ c.value) = cookieHeader l := by
  induction l with
  | nil => rfl
  | cons c rest ih =>
    cases rest with
    | nil => rfl
    | cons c2 rest2 =>
      rw [List.map_cons, List.map_cons, intercalate_cons_cons]
      rw [List.map_cons] at ih
      rw [ih]
      show _ = c.name ++ "=" ++ c.value ++ "; " ++ cookieHeader (c2 :: rest2)
      apply String.ext
      simp

/-! Claim theorems: sanitization (C8), cookie serialization (C9), detector
relationship (C10). -/

/-- C9: for every stored session record, `get_cookies` returns exactly the
cookie entries' `name=value` pairs joined by `"; "` in the stored order with
no trailing separator (`cookieHeader`), the empty sequence giving `""`. -/
theorem c9_cookie_header_serialization (st : StorageState) :
    get_cookies (some st) = some (cookieHeader st.cookies) := by
  rw [get_cookies, cookieHeader_spec]

/-- C8 counterexample: at input `"!"` the code's sanitization `safe_reason`
(which also strips leading/trailing underscores before defaulting) yields
`"error"`, while the transformation the claim describes (`claimed_sanitize`:
collapse-and-lowercase, defaulting exactly on an empty result) yields `"_"`. -/
theorem c8_sanitize_cex : safe_reason "!" ≠ claimed_sanitize "!" := by decide

/-- C8 (amended): the tag sanitization collapses each maximal run of
characters outside `[a-zA-Z0-9_-]` to a single `_`, then strips leading and
trailing underscores, lower-cases, and defaults to `"error"` when the
stripped result is empty; the produced tag always consists solely of
characters in `[a-zA-Z0-9_-]` and is never empty. -/
theorem c8_sanitize_amended (reason : String) :
    (safe_reason reason).data.all isAllowedChar = true ∧
    safe_reason reason ≠ "" ∧
    safe_reason reason =
      (let s := String.mk
        ((stripUnderscore (collapseBad reason.data false)).map Char.toLower)
       if s = "" then "error" else s) ∧
    (stripUnderscore (collapseBad reason.data false) = [] →
      safe_reason reason = "error") := by
  have hdef : safe_reason reason =
      if String.mk ((stripUnderscore (collapseBad reason.data false)).map Char.toLower) = ""
      then "error"
      else String.mk ((stripUnderscore (collapseBad reason.data false)).map Char.toLower) := rfl
  refine ⟨?_, ?_, rfl, ?_⟩
  · rw [hdef]
    by_cases h :
        String.mk ((stripUnderscore (collapseBad reason.data false)).map Char.toLower) = ""
    · rw [if_pos h]; decide
    · rw [if_neg h]
      rw [List.all_eq_true]
      intro c hc
      rcases List.mem_map.mp hc with ⟨d, hd, rfl⟩
      exact toLower_allowed d (collapseBad_allowed _ false d (stripUnderscore_subset _ hd))
  · rw [hdef]
    by_cases h :
        String.mk ((stripUnderscore (collapseBad reason.data false)).map Char.toLower) = ""
    · rw [if_pos h]; decide
    · rw [if_neg h]; exact h
  · intro h
    rw [hdef, h]
    rfl

/-- Concrete page environment: page acquisition succeeds, navigation times
out, the already-applied marker is present, and nothing else matches. -/
def envAlready : Env :=
  Env.mk GetPageOutcome.ok (GotoOutcome.timeout "Timeout 30000ms exceeded")
    "Вакансия" "страница"
    (fun s => if s = sel_already then 1 else 0) (fun _ => 0)
    false false none

/-- C10: whenever the already-applied detector fires, the success detector
fires too, because the marker selector of `_check_already_applied` is
literally the second entry in the ordered success-marker list of
`_check_application_success`. -/
theorem c10_already_implies_success (env : Env)
    (h : VacancyApplyService.check_already_applied env = true) :
    VacancyApplyService.check_application_success env = true := by
  rw [VacancyApplyService.check_already_applied, decide_eq_true_iff] at h
  rw [VacancyApplyService.check_application_success, List.any_eq_true]
  exact ⟨sel_already, by simp [VacancyApplyService.success_texts], by simpa using h⟩

/-- C10 witness: on a concrete page with the already-applied marker present,
the success detector evaluates to `true` via the theorem. -/
theorem c10_already_implies_success_witness :
    VacancyApplyService.check_application_success envAlready = true :=
  c10_already_implies_success envAlready (by decide)

/-! Claim theorems: strategy-level properties (C5, C6, C7). -/

/-- C5: whenever the modal overlay is entered (it appeared and no exception
interrupts the interactions) and the submit control is absent, the shared
modal-fill routine returns the terminal `Error("Submit button not found")`
rather than declining with `none`, so no later strategy runs on that path. -/
theorem c5_modal_submit_missing_error (env : Env) (message : String)
    (h1 : env.modalAppears = true) (h2 : env.modalRaises = false)
    (h3 : env.modalLocCount sel_modal_submit = 0) :
    (VacancyApplyService.fill_cover_letter_modal env message).1 =
      some ⟨ApplyStatus.ERROR, "Submit button not found"⟩ := by
  simp [VacancyApplyService.fill_cover_letter_modal, h1, h2, h3]

/-- Concrete modal environment for the C5 witness: overlay appeared, textarea
present, no submit control. -/
def envModalNoSubmit : Env :=
  Env.mk GetPageOutcome.ok GotoOutcome.ok "Вакансия" "страница"
    (fun _ => 0) (fun s => if s = sel_modal_textarea then 1 else 0)
    true false none

/-- C5 witness: on the concrete modal without a submit control, the routine
returns `Error("Submit button not found")`. -/
theorem c5_modal_submit_missing_error_witness :
    (VacancyApplyService.fill_cover_letter_modal envModalNoSubmit "hi").1 =
      some ⟨ApplyStatus.ERROR, "Submit button not found"⟩ :=
  c5_modal_submit_missing_error envModalNoSubmit "hi" rfl rfl (by decide)

/-- Concrete modal environment for the C6 counterexample: overlay appeared,
textarea and submit control present. -/
def envModalTextarea : Env :=
  Env.mk GetPageOutcome.ok GotoOutcome.ok "Вакансия" "страница"
    (fun _ => 0)
    (fun s => if s = sel_modal_textarea ∨ s = sel_modal_submit then 1 else 0)
    true false none

/-- C6 counterexample: with an empty message and the modal textarea present,
the routine nonetheless fills the textarea (with the empty string): the fill
at lines 97–99 of `apply.py` is guarded only by the textarea's presence, not
by the message being non-empty as the claim states. -/
theorem c6_modal_fill_cex :
    Ev.fill sel_modal_textarea "" ∈
      (VacancyApplyService.fill_cover_letter_modal envModalTextarea "").2 := by
  decide

/-- C6 (amended): in the shared modal-fill routine, the cover-letter textarea
is filled — with the given message, even when it is empty — exactly when the
modal is entered without exception and the textarea is present; the
empty-message guard lives in the callers (strategies A and B), not here. -/
theorem c6_modal_fill_amended (env : Env) (message : String)
    (h1 : env.modalAppears = true) (h2 : env.modalRaises = false) :
    (Ev.fill sel_modal_textarea message ∈
        (VacancyApplyService.fill_cover_letter_modal env message).2) ↔
      0 < env.modalLocCount sel_modal_textarea := by
  simp only [VacancyApplyService.fill_cover_letter_modal, h1, h2, if_true, if_false,
    Bool.false_eq_true, ite_false, ite_true]
  constructor
  · intro hm
    by_contra hn
    rw [if_neg hn] at hm
    split at hm <;> simp at hm
  · intro hp
    rw [if_pos hp]
    split <;> split <;> simp

/-- Concrete modal environment for the C6 amended witness: overlay appeared,
only the textarea present. -/
def envModalOnlyTextarea : Env :=
  Env.mk GetPageOutcome.ok GotoOutcome.ok "Вакансия" "страница"
    (fun _ => 0) (fun s => if s = sel_modal_textarea then 2 else 0)
    true false none

/-- C6 amended witness: on the concrete modal with a textarea, the fill event
with the empty message occurs. -/
theorem c6_modal_fill_amended_witness :
    Ev.fill sel_modal_textarea "" ∈
      (VacancyApplyService.fill_cover_letter_modal envModalOnlyTextarea "").2 :=
  (c6_modal_fill_amended envModalOnlyTextarea "" rfl rfl).mpr (by decide)

/-- C7: with an empty cover-letter message, each message-requiring strategy
(direct cover-letter link, dropdown-with-cover-letter, post-apply screen)
declines — it returns `none` and performs no interaction at all — for every
page state, whatever optional UI elements are present, so the engine's chain
proceeds to its next step. -/
theorem c7_empty_message_strategies_decline (env : Env) :
    VacancyApplyService.try_cover_letter_link env "" = (none, []) ∧
    VacancyApplyService.try_dropdown_apply env "" = (none, []) ∧
    VacancyApplyService.try_post_apply_letter env "" = (none, []) := by
  refine ⟨?_, ?_, ?_⟩
  · rw [VacancyApplyService.try_cover_letter_link, if_neg (by simp)]
  · rw [VacancyApplyService.try_dropdown_apply, if_neg (by simp)]
  · rw [VacancyApplyService.try_post_apply_letter]
    split
    · rw [if_neg (by simp)]
    · rfl

/-! Claim theorems: engine-level properties (C1, C2, C3, C4). -/

theorem nav_events_benign (env : Env) :
    ∀ e ∈ VacancyApplyService.nav_events env, e.isStrategy = false ∧ e.isMutation = false := by
  intro e he
  unfold VacancyApplyService.nav_events at he
  cases hg : env.goto with
  | ok =>
    rw [hg] at he
    simp at he
    subst he
    exact ⟨rfl, rfl⟩
  | timeout m =>
    rw [hg] at he
    simp [VacancyApplyService.save_screenshot] at he
    rcases he with he | he <;> subst he <;> exact ⟨rfl, rfl⟩
  | failed m =>
    rw [hg] at he
    simp [VacancyApplyService.save_screenshot] at he
    rcases he with he | he <;> subst he <;> exact ⟨rfl, rfl⟩

/-- C1: whenever the body of `apply` raises (any internal exception not
handled earlier), `apply` does not propagate it: the result is the `Error`
dictionary whose message is the exception's own message, and the diagnostic
`apply_error` screenshot is attempted exactly on the generic handler with a
live page handle (never when page acquisition itself failed). -/
theorem c1_top_level_exception_conversion (env : Env) (message : String)
    (e : PyExc) (tr : List Ev)
    (h : VacancyApplyService.apply_body env message = (Except.error e, tr)) :
    (VacancyApplyService.apply env message).1 = ApplyDict.mk "error" e.msg ∧
    (VacancyApplyService.pageBound env = false →
      (VacancyApplyService.apply env message).2 = tr) ∧
    (VacancyApplyService.pageBound env = true → e.isFileNotFoundError = false →
      (VacancyApplyService.apply env message).2 =
        tr ++ [Ev.screenshot (safe_reason "apply_error")]) := by
  unfold VacancyApplyService.apply
  rw [h]
  refine ⟨?_, ?_, ?_⟩
  · by_cases he : e.isFileNotFoundError = true <;>
      simp [he, ApplyResult.to_dict, ApplyStatus.value]
  · intro hp
    by_cases he : e.isFileNotFoundError = true <;>
      simp [he, hp, VacancyApplyService.save_screenshot]
  · intro hp he
    simp [he, hp, VacancyApplyService.save_screenshot]

/-- Concrete environment for the C1 witness: page acquisition raises a
generic exception with message "boom". -/
def envRaise : Env :=
  Env.mk (GetPageOutcome.raises "boom") GotoOutcome.ok "Вакансия" "страница"
    (fun _ => 0) (fun _ => 0) false false none

/-- C1 witness: for the concrete failing page acquisition, `apply` returns
`Error("boom")` and, `page` being unbound, attempts no screenshot. -/
theorem c1_top_level_exception_conversion_witness :
    (VacancyApplyService.apply envRaise "").1 = ApplyDict.mk "error" "boom" ∧
    (VacancyApplyService.apply envRaise "").2 = [] := by
  have h := c1_top_level_exception_conversion envRaise "" ⟨false, "boom"⟩ [] rfl
  exact ⟨h.1, h.2.1 rfl⟩

/-- C2: when bot-protection markers are present (title contains "captcha" or
content contains "robot", case-insensitively), `apply` returns the `Error`
dictionary with message "Bot protection triggered (captcha)" and no
interaction strategy (A, B, C or D) is invoked in that call. -/
theorem c2_bot_protection_short_circuit (env : Env) (message : String)
    (h0 : env.getPage = GetPageOutcome.ok)
    (h1 : VacancyApplyService.check_bot_protection env = true) :
    (VacancyApplyService.apply env message).1 =
      ApplyDict.mk "error" "Bot protection triggered (captcha)" ∧
    ∀ e ∈ (VacancyApplyService.apply env message).2, e.isStrategy = false := by
  have hbody : VacancyApplyService.apply_body env message =
      (Except.ok ⟨ApplyStatus.ERROR, "Bot protection triggered (captcha)"⟩,
        VacancyApplyService.nav_events env ++ [Ev.detect_bot]) := by
    unfold VacancyApplyService.apply_body
    rw [h0]
    simp [h1]
  unfold VacancyApplyService.apply
  rw [hbody]
  refine ⟨rfl, ?_⟩
  intro e he
  rcases List.mem_append.mp he with he | he
  · exact (nav_events_benign env e he).1
  · simp at he
    subst he
    rfl

/-- Concrete environment for the C2 witness: a page whose title shows a
captcha challenge. -/
def envBot : Env :=
  Env.mk GetPageOutcome.ok GotoOutcome.ok "Captcha check" "challenge page"
    (fun _ => 0) (fun _ => 0) false false none

/-- C2 witness: on the concrete captcha page, `apply` returns the
bot-protection error and its trace holds no strategy invocation. -/
theorem c2_bot_protection_short_circuit_witness :
    (VacancyApplyService.apply envBot "").1 =
      ApplyDict.mk "error" "Bot protection triggered (captcha)" ∧
    ((VacancyApplyService.apply envBot "").2.all fun e => !e.isStrategy) = true := by
  have h := c2_bot_protection_short_circuit envBot "" rfl (by decide)
  exact ⟨h.1, List.all_eq_true.mpr fun e he => by simp [h.2 e he]⟩

/-- C3: when the already-applied marker is present and bot protection is not
detected, `apply` returns the `Skipped("Already applied")` dictionary and its
whole trace holds no UI-mutating interaction (no click, no fill); the
statement quantifies over every navigation outcome, so it covers in
particular the navigation-timeout case. -/
theorem c3_already_applied_skip (env : Env) (message : String)
    (h0 : env.getPage = GetPageOutcome.ok)
    (h1 : VacancyApplyService.check_bot_protection env = false)
    (h2 : VacancyApplyService.check_already_applied env = true) :
    (VacancyApplyService.apply env message).1 = ApplyDict.mk "skipped" "Already applied" ∧
    ∀ e ∈ (VacancyApplyService.apply env message).2, e.isMutation = false := by
  have hbody : VacancyApplyService.apply_body env message =
      (Except.ok ⟨ApplyStatus.SKIPPED, "Already applied"⟩,
        VacancyApplyService.nav_events env ++ [Ev.detect_bot, Ev.detect_applied]) := by
    unfold VacancyApplyService.apply_body
    rw [h0]
    simp [h1, h2]
  unfold VacancyApplyService.apply
  rw [hbody]
  refine ⟨rfl, ?_⟩
  intro e he
  rcases List.mem_append.mp he with he | he
  · exact (nav_events_benign env e he).2
  · simp at he
    rcases he with he | he <;> subst he <;> rfl

/-- C3 witness: on the concrete page whose navigation timed out but whose
partially loaded content shows the already-applied marker, `apply` returns
`Skipped("Already applied")` with no mutating interaction in the trace. -/
theorem c3_already_applied_skip_witness :
    (VacancyApplyService.apply envAlready "").1 =
      ApplyDict.mk "skipped" "Already applied" ∧
    ((VacancyApplyService.apply envAlready "").2.all fun e => !e.isMutation) = true := by
  have h := c3_already_applied_skip envAlready "" rfl (by decide) (by decide)
  exact ⟨h.1, List.all_eq_true.mpr fun e he => by simp [h.2 e he]⟩

/-- C4: when success detection is reached — page acquired, neither detector
fired, strategies A–D all declined, the apply control exists and its click
did not raise — the outcome is `Success`: "Applied successfully" when some
ordered success marker is present, and otherwise "Applied (status unclear)"
with a diagnostic screenshot tagged `status_unclear` captured before
returning. -/
theorem c4_success_detection (env : Env) (message : String)
    (h0 : env.getPage = GetPageOutcome.ok)
    (h1 : VacancyApplyService.check_bot_protection env = false)
    (h2 : VacancyApplyService.check_already_applied env = false)
    (h3 : (VacancyApplyService.try_cover_letter_link env message).1 = none)
    (h4 : VacancyApplyService.apply_button_count env ≠ 0)
    (h5 : (VacancyApplyService.try_dropdown_apply env message).1 = none)
    (h6 : env.stdClickRaises = none)
    (h7 : (VacancyApplyService.fill_cover_letter_modal env message).1 = none)
    (h8 : (VacancyApplyService.try_post_apply_letter env message).1 = none) :
    (VacancyApplyService.check_application_success env = true →
      (VacancyApplyService.apply env message).1 =
        ApplyDict.mk "success" "Applied successfully") ∧
    (VacancyApplyService.check_application_success env = false →
      (VacancyApplyService.apply env message).1 =
        ApplyDict.mk "success" "Applied (status unclear)" ∧
      Ev.screenshot "status_unclear" ∈ (VacancyApplyService.apply env message).2) := by
  have htag : safe_reason "status unclear" = "status_unclear" := by decide
  constructor
  · intro hs
    unfold VacancyApplyService.apply VacancyApplyService.apply_body
    rw [h0]
    simp [h1, h2, h3, h4, h5, h6, h7, h8, hs, ApplyResult.to_dict, ApplyStatus.value]
  · intro hs
    unfold VacancyApplyService.apply VacancyApplyService.apply_body
    rw [h0]
    simp [h1, h2, h3, h4, h5, h6, h7, h8, hs, ApplyResult.to_dict, ApplyStatus.value,
      VacancyApplyService.save_screenshot, htag]

/-- Concrete environment for the C4 witness: only the top apply control
exists; no modal, no markers, nothing else matches. -/
def envUnclear : Env :=
  Env.mk GetPageOutcome.ok GotoOutcome.ok "Вакансия" "описание вакансии"
    (fun s => if s = sel_apply_top then 1 else 0) (fun _ => 0)
    false false none

/-- C4 witness: on the concrete markerless page, `apply` returns
`Success("Applied (status unclear)")` and its trace holds the
`status_unclear`-tagged screenshot. -/
theorem c4_success_detection_witness :
    (VacancyApplyService.apply envUnclear "").1 =
      ApplyDict.mk "success" "Applied (status unclear)" ∧
    Ev.screenshot "status_unclear" ∈ (VacancyApplyService.apply envUnclear "").2 :=
  (c4_success_detection envUnclear "" rfl (by decide) (by decide) (by decide)
    (by decide) (by decide) rfl (by decide) (by decide)).2 (by decide)

/-- Concrete environment for the C7 witness: every optional UI element is
present (cover-letter link, dropdown, with-letter option, textareas, resume
marker, modal with all controls). -/
def envAllUI : Env :=
  Env.mk GetPageOutcome.ok GotoOutcome.ok "Вакансия" "страница"
    (fun _ => 1) (fun _ => 1) true false none

/-- C7 witness: with every optional UI element present and an empty message,
all three message-requiring strategies decline without interaction. -/
theorem c7_empty_message_strategies_decline_witness :
    VacancyApplyService.try_cover_letter_link envAllUI "" = (none, []) ∧
    VacancyApplyService.try_dropdown_apply envAllUI "" = (none, []) ∧
    VacancyApplyService.try_post_apply_letter envAllUI "" = (none, []) :=
  c7_empty_message_strategies_decline envAllUI

/-- C8 amended witness: a concrete reason with spaces, a colon and an
exclamation mark sanitizes to allowed characters only and is non-empty. -/
theorem c8_sanitize_amended_witness :
    (safe_reason "Status: unclear!").data.all isAllowedChar = true ∧
    safe_reason "Status: unclear!" ≠ "" :=
  ⟨(c8_sanitize_amended "Status: unclear!").1, (c8_sanitize_amended "Status: unclear!").2.1⟩

/-- Concrete stored session with two cookies, in order. -/
def stTwoCookies : StorageState :=
  StorageState.mk [Cookie.mk "hhtoken" "abc", Cookie.mk "hhuid" "42"]

/-- C9 witness: the concrete two-cookie session serializes to
`"hhtoken=abc; hhuid=42"` — stored order, single `"; "` separator, no
trailing separator. -/
theorem c9_cookie_header_serialization_witness :
    get_cookies (some stTwoCookies) = some "hhtoken=abc; hhuid=42" := by
  rw [c9_cookie_header_serialization]
  decide
